import Mathlib

/-!
Verification of the ATPneumatics simulator core
(python/lsst/ts/atpneumaticssimulator/pneumatics_simulator.py and
pneumatics_server_simulator.py) against its natural-language specification.

The simulator is embedded shallowly: the mutable `PneumaticsSimulator`
object becomes an explicit `SimState` record, every handler becomes a pure
function from state to state, and everything the simulator writes to its
TCP servers (command responses, events, telemetry) is collected into an
output trace, in emission order.  An asyncio.sleep performed inside a
handler is recorded in the trace as a `TraceItem.sleep` marker carrying
the slept duration.  Python floats only ever get stored and compared by
the simulator (never arithmetically combined), so they are modelled
exactly as rationals.  Python exceptions escaping a callback (KeyError on
a missing dict key, TypeError on mismatched keyword arguments, a failed
assert) are modelled with `Except PyExc`.

The command/event server dispatches serially: read_and_dispatch in
pneumatics_server_simulator.py awaits the dispatch callback before the
next message is read, and no handler spawns a background task, so a run
of the simulator over a stream of inbound payloads is the fold
`processCommands`.
-/

namespace ATPneumatics

/-- lsst.ts.idl.enums.ATPneumatics.AirValveState (external IDL enum). -/
inductive AirValveState
  | CLOSED
  | OPENED
  deriving DecidableEq, Repr

/-- lsst.ts.idl.enums.ATPneumatics.MirrorCoverState (external IDL enum). -/
inductive MirrorCoverState
  | CLOSED
  | OPENED
  | INMOTION
  | INVALID
  deriving DecidableEq, Repr

/-- lsst.ts.idl.enums.ATPneumatics.CellVentState (external IDL enum). -/
inductive CellVentState
  | CLOSED
  | OPENED
  | INMOTION
  deriving DecidableEq, Repr

/-- lsst.ts.idl.enums.ATPneumatics.VentsPosition (external IDL enum). -/
inductive VentsPosition
  | CLOSED
  | OPENED
  | PARTIALLYOPENED
  deriving DecidableEq, Repr

/-- enums.Ack. -/
inductive Ack
  | ACK
  | FAIL
  | NOACK
  | SUCCESS
  deriving DecidableEq, Repr

/-- enums.OpenCloseState. -/
inductive OpenCloseState
  | CLOSING
  | CLOSED
  | OPENING
  | OPEN
  deriving DecidableEq, Repr

/-- enums.Command: each member's string value, as sent in the payload id field. -/
inductive Command
  | CLOSE_INSTRUMENT_AIR_VALE
  | CLOSE_M1_CELL_VENTS
  | CLOSE_M1_COVER
  | CLOSE_MASTER_AIR_SUPPLY
  | M1_CLOSE_AIR_VALVE
  | M1_OPEN_AIR_VALVE
  | M1_SET_PRESSURE
  | M2_CLOSE_AIR_VALVE
  | M2_OPEN_AIR_VALVE
  | M2_SET_PRESSURE
  | OPEN_INSTRUMENT_AIR_VALVE
  | OPEN_M1_CELL_VENTS
  | OPEN_M1_COVER
  | OPEN_MASTER_AIR_SUPPLY
  deriving DecidableEq, Repr

/-- dataclasses.M1CoverLimitSwitches. -/
structure M1CoverLimitSwitches where
  cover1ClosedActive : Bool
  cover2ClosedActive : Bool
  cover3ClosedActive : Bool
  cover4ClosedActive : Bool
  cover1OpenedActive : Bool
  cover2OpenedActive : Bool
  cover3OpenedActive : Bool
  cover4OpenedActive : Bool
  deriving DecidableEq, Repr

/-- dataclasses.M1VentsLimitSwitches. -/
structure M1VentsLimitSwitches where
  ventsClosedActive : Bool
  ventsOpenedActive : Bool
  deriving DecidableEq, Repr

/-- dataclasses.PowerStatus. -/
structure PowerStatus where
  powerOnL1 : Bool
  powerOnL2 : Bool
  powerOnL3 : Bool
  deriving DecidableEq, Repr

/-- An outbound event message, one constructor per enums.Event member, carrying
the data fields the simulator writes with it. -/
inductive Evt
  | cellVentsState (state : CellVentState)
  | eStop (triggered : Bool)
  | instrumentState (state : AirValveState)
  | m1CoverLimitSwitches (cover1ClosedActive cover1OpenedActive cover2ClosedActive
      cover2OpenedActive cover3ClosedActive cover3OpenedActive cover4ClosedActive
      cover4OpenedActive : Bool)
  | m1CoverState (state : MirrorCoverState)
  | m1SetPressure (pressure : ℚ)
  | m1State (state : AirValveState)
  | m1VentsLimitSwitches (ventsClosedActive ventsOpenedActive : Bool)
  | m1VentsPosition (position : VentsPosition)
  | m2State (state : AirValveState)
  | m2SetPressure (pressure : ℚ)
  | mainValveState (state : AirValveState)
  | powerStatus (powerOnL1 powerOnL2 powerOnL3 : Bool)
  deriving DecidableEq, Repr

/-- An outbound telemetry message, one constructor per enums.Telemetry member. -/
inductive Tel
  | loadCell (cellLoad : ℚ)
  | m1AirPressure (pressure : ℚ)
  | m2AirPressure (pressure : ℚ)
  | mainAirSourcePressure (pressure : ℚ)
  deriving DecidableEq, Repr

/-- One element of the simulator's output trace: a command response written by
write_response, an event written by _write_evt, a telemetry record written by
_write_telemetry, or an asyncio.sleep performed inside a handler. -/
inductive TraceItem
  | response (ack : Ack) (sequence_id : Int)
  | evt (e : Evt)
  | tel (t : Tel)
  | sleep (seconds : ℚ)
  deriving DecidableEq, Repr

/-- A Python exception escaping a handler or callback. -/
inductive PyExc
  | keyError
  | typeError
  | assertionError
  deriving DecidableEq, Repr

/-- The mutable attributes of PneumaticsSimulator (PneumaticsSimulator.__init__). -/
structure SimState where
  m1_covers_state : OpenCloseState
  m1_vents_state : OpenCloseState
  cell_vents_state : CellVentState
  e_stop : Bool
  instrument_state : AirValveState
  m1_cover_limit_switches : M1CoverLimitSwitches
  m1_cover_state : MirrorCoverState
  m1_pressure : ℚ
  m1_state : AirValveState
  m1_vents_limit_switches : M1VentsLimitSwitches
  m1_vents_position : VentsPosition
  m2_cover_state : MirrorCoverState
  m2_pressure : ℚ
  m2_state : AirValveState
  main_valve_state : AirValveState
  power_status : PowerStatus
  m1_covers_close_time : ℚ
  m1_covers_open_time : ℚ
  cell_vents_close_time : ℚ
  cell_vents_open_time : ℚ
  load_cell_cellLoad : ℚ
  m1_air_pressure : ℚ
  m2_air_pressure : ℚ
  main_air_source_pressure : ℚ
  last_sequence_id : Int
  deriving DecidableEq, Repr

/-- The state built by PneumaticsSimulator.__init__ (zero/closed defaults,
last_sequence_id = 0). -/
def initState : SimState where
  m1_covers_state := OpenCloseState.CLOSED
  m1_vents_state := OpenCloseState.CLOSED
  cell_vents_state := CellVentState.CLOSED
  e_stop := false
  instrument_state := AirValveState.CLOSED
  m1_cover_limit_switches :=
    { cover1ClosedActive := false, cover2ClosedActive := false
      cover3ClosedActive := false, cover4ClosedActive := false
      cover1OpenedActive := false, cover2OpenedActive := false
      cover3OpenedActive := false, cover4OpenedActive := false }
  m1_cover_state := MirrorCoverState.CLOSED
  m1_pressure := 0
  m1_state := AirValveState.CLOSED
  m1_vents_limit_switches := { ventsClosedActive := false, ventsOpenedActive := false }
  m1_vents_position := VentsPosition.CLOSED
  m2_cover_state := MirrorCoverState.CLOSED
  m2_pressure := 0
  m2_state := AirValveState.CLOSED
  main_valve_state := AirValveState.CLOSED
  power_status := { powerOnL1 := false, powerOnL2 := false, powerOnL3 := false }
  m1_covers_close_time := 0
  m1_covers_open_time := 0
  cell_vents_close_time := 0
  cell_vents_open_time := 0
  load_cell_cellLoad := 0
  m1_air_pressure := 0
  m2_air_pressure := 0
  main_air_source_pressure := 0
  last_sequence_id := 0

/-- An inbound command payload: the dict keys the simulator ever reads
(CommandArgument.ID, SEQUENCE_ID, PRESSURE, VALUE), each possibly absent. -/
structure CommandData where
  id : Option String
  sequence_id : Option Int
  pressure : Option ℚ
  value : Option Bool
  deriving DecidableEq, Repr

/-- Fuel-structured worker for pyReplace (fuel bounds the scan length so the
kernel can evaluate it). -/
def replaceAllAux (pat rep : List Char) : Nat → List Char → List Char
  | 0, s => s
  | fuel + 1, s =>
    match s with
    | [] => []
    | c :: rest =>
      if pat.isPrefixOf (c :: rest) then
        rep ++ replaceAllAux pat rep fuel (List.drop pat.length (c :: rest))
      else
        c :: replaceAllAux pat rep fuel rest

/-- Python str.replace(pat, rep): replace every occurrence of pat, scanning
left to right (for an empty pat the simulator never calls it, so the input is
returned unchanged). -/
def pyReplace (s pat rep : String) : String :=
  if pat.isEmpty then s
  else String.mk (replaceAllAux pat.data rep.data s.data.length s.data)

/-- Modelled from the spec: the JSON schema registry
(python/lsst/ts/atpneumaticssimulator/schemas/registry.py is not among the
source files).  Per the spec, every command has a registered schema keyed by
the command name with the cmd_ prefix replaced by command_ (the real registry
also holds event and telemetry schemas, which never match an inbound command
id of the cmd_ shape). -/
def registryKeys : List String :=
  ["command_closeInstrumentAirValve", "command_closeM1CellVents",
   "command_closeM1Cover", "command_closeMasterAirSupply",
   "command_m1CloseAirValve", "command_m1OpenAirValve", "command_m1SetPressure",
   "command_m2CloseAirValve", "command_m2OpenAirValve", "command_m2SetPressure",
   "command_openInstrumentAirValve", "command_openM1CellVents",
   "command_openM1Cover", "command_openMasterAirSupply"]

/-- Lookup in PneumaticsSimulator.dispatch_dict: the payload id string against
the string values of the Command enum; none models a KeyError. -/
def commandOfString (s : String) : Option Command :=
  if s = "cmd_closeInstrumentAirValve" then some Command.CLOSE_INSTRUMENT_AIR_VALE
  else if s = "cmd_closeM1CellVents" then some Command.CLOSE_M1_CELL_VENTS
  else if s = "cmd_closeM1Cover" then some Command.CLOSE_M1_COVER
  else if s = "cmd_closeMasterAirSupply" then some Command.CLOSE_MASTER_AIR_SUPPLY
  else if s = "cmd_m1CloseAirValve" then some Command.M1_CLOSE_AIR_VALVE
  else if s = "cmd_m1OpenAirValve" then some Command.M1_OPEN_AIR_VALVE
  else if s = "cmd_m1SetPressure" then some Command.M1_SET_PRESSURE
  else if s = "cmd_m2CloseAirValve" then some Command.M2_CLOSE_AIR_VALVE
  else if s = "cmd_m2OpenAirValve" then some Command.M2_OPEN_AIR_VALVE
  else if s = "cmd_m2SetPressure" then some Command.M2_SET_PRESSURE
  else if s = "cmd_openInstrumentAirValve" then some Command.OPEN_INSTRUMENT_AIR_VALVE
  else if s = "cmd_openM1CellVents" then some Command.OPEN_M1_CELL_VENTS
  else if s = "cmd_openM1Cover" then some Command.OPEN_M1_COVER
  else if s = "cmd_openMasterAirSupply" then some Command.OPEN_MASTER_AIR_SUPPLY
  else none

/-- PneumaticsSimulator.write_response: one response message. -/
def write_response (response : Ack) (sequence_id : Int) : List TraceItem :=
  [TraceItem.response response sequence_id]

/-- PneumaticsSimulator.set_m1_cover_events: set the limit-switch fields for
all four petals, emit m1CoverLimitSwitches, derive and set m1_cover_state,
emit m1CoverState. -/
def set_m1_cover_events (s : SimState) (closed opened : Bool) :
    SimState × List TraceItem :=
  let ls : M1CoverLimitSwitches :=
    { cover1ClosedActive := closed, cover2ClosedActive := closed
      cover3ClosedActive := closed, cover4ClosedActive := closed
      cover1OpenedActive := opened, cover2OpenedActive := opened
      cover3OpenedActive := opened, cover4OpenedActive := opened }
  let cover_state :=
    if opened && closed then MirrorCoverState.INVALID
    else if opened then MirrorCoverState.OPENED
    else if closed then MirrorCoverState.CLOSED
    else MirrorCoverState.INMOTION
  ({ s with m1_cover_limit_switches := ls, m1_cover_state := cover_state },
   [TraceItem.evt (Evt.m1CoverLimitSwitches closed opened closed opened
      closed opened closed opened),
    TraceItem.evt (Evt.m1CoverState cover_state)])

/-- PneumaticsSimulator.set_cell_vents_events: when neither switch is active
first set cell_vents_state to INMOTION and emit cellVentsState; then set and
emit m1VentsLimitSwitches, derive, set and emit m1VentsPosition, derive
cell_vents_state (unchanged when in motion) and emit cellVentsState again. -/
def set_cell_vents_events (s : SimState) (closed opened : Bool) :
    SimState × List TraceItem :=
  let inMotion := !(closed || opened)
  let sA := if inMotion then { s with cell_vents_state := CellVentState.INMOTION } else s
  let outA :=
    if inMotion then [TraceItem.evt (Evt.cellVentsState CellVentState.INMOTION)] else []
  let pos :=
    if opened then VentsPosition.OPENED
    else if closed then VentsPosition.CLOSED
    else VentsPosition.PARTIALLYOPENED
  let vstate :=
    if opened then CellVentState.OPENED
    else if closed then CellVentState.CLOSED
    else sA.cell_vents_state
  ({ sA with
      m1_vents_limit_switches := { ventsClosedActive := closed, ventsOpenedActive := opened }
      m1_vents_position := pos
      cell_vents_state := vstate },
   outA ++
     [TraceItem.evt (Evt.m1VentsLimitSwitches closed opened),
      TraceItem.evt (Evt.m1VentsPosition pos),
      TraceItem.evt (Evt.cellVentsState vstate)])

/-- PneumaticsSimulator.do_close_instrument_air_valve. -/
def do_close_instrument_air_valve (s : SimState) (sequence_id : Int) :
    SimState × List TraceItem :=
  ({ s with instrument_state := AirValveState.CLOSED },
   TraceItem.evt (Evt.instrumentState AirValveState.CLOSED) ::
     write_response Ack.SUCCESS sequence_id)

/-- PneumaticsSimulator.do_open_instrument_air_valve. -/
def do_open_instrument_air_valve (s : SimState) (sequence_id : Int) :
    SimState × List TraceItem :=
  ({ s with instrument_state := AirValveState.OPENED },
   TraceItem.evt (Evt.instrumentState AirValveState.OPENED) ::
     write_response Ack.SUCCESS sequence_id)

/-- PneumaticsSimulator.do_close_master_air_supply. -/
def do_close_master_air_supply (s : SimState) (sequence_id : Int) :
    SimState × List TraceItem :=
  ({ s with main_valve_state := AirValveState.CLOSED },
   TraceItem.evt (Evt.mainValveState AirValveState.CLOSED) ::
     write_response Ack.SUCCESS sequence_id)

/-- PneumaticsSimulator.do_open_master_air_supply. -/
def do_open_master_air_supply (s : SimState) (sequence_id : Int) :
    SimState × List TraceItem :=
  ({ s with main_valve_state := AirValveState.OPENED },
   TraceItem.evt (Evt.mainValveState AirValveState.OPENED) ::
     write_response Ack.SUCCESS sequence_id)

/-- PneumaticsSimulator.do_m1_close_air_valve. -/
def do_m1_close_air_valve (s : SimState) (sequence_id : Int) :
    SimState × List TraceItem :=
  ({ s with m1_state := AirValveState.CLOSED },
   TraceItem.evt (Evt.m1State AirValveState.CLOSED) ::
     write_response Ack.SUCCESS sequence_id)

/-- PneumaticsSimulator.do_m1_open_air_valve. -/
def do_m1_open_air_valve (s : SimState) (sequence_id : Int) :
    SimState × List TraceItem :=
  ({ s with m1_state := AirValveState.OPENED },
   TraceItem.evt (Evt.m1State AirValveState.OPENED) ::
     write_response Ack.SUCCESS sequence_id)

/-- PneumaticsSimulator.do_m2_close_air_valve. -/
def do_m2_close_air_valve (s : SimState) (sequence_id : Int) :
    SimState × List TraceItem :=
  ({ s with m2_state := AirValveState.CLOSED },
   TraceItem.evt (Evt.m2State AirValveState.CLOSED) ::
     write_response Ack.SUCCESS sequence_id)

/-- PneumaticsSimulator.do_m2_open_air_valve. -/
def do_m2_open_air_valve (s : SimState) (sequence_id : Int) :
    SimState × List TraceItem :=
  ({ s with m2_state := AirValveState.OPENED },
   TraceItem.evt (Evt.m2State AirValveState.OPENED) ::
     write_response Ack.SUCCESS sequence_id)

/-- PneumaticsSimulator.do_m1_set_pressure. -/
def do_m1_set_pressure (s : SimState) (sequence_id : Int) (pressure : ℚ) :
    SimState × List TraceItem :=
  ({ s with m1_pressure := pressure },
   TraceItem.evt (Evt.m1SetPressure pressure) :: write_response Ack.SUCCESS sequence_id)

/-- PneumaticsSimulator.do_m2_set_pressure. -/
def do_m2_set_pressure (s : SimState) (sequence_id : Int) (pressure : ℚ) :
    SimState × List TraceItem :=
  ({ s with m2_pressure := pressure },
   TraceItem.evt (Evt.m2SetPressure pressure) :: write_response Ack.SUCCESS sequence_id)

/-- PneumaticsSimulator.do_close_m1_cover: skipped entirely when the covers
are already CLOSING or CLOSED; otherwise emit the in-motion events and sleep
m1_covers_close_time when the cover state is not yet CLOSED, then emit the
settled (closed) events; SUCCESS always. -/
def do_close_m1_cover (s : SimState) (sequence_id : Int) :
    SimState × List TraceItem :=
  if s.m1_covers_state = OpenCloseState.CLOSING ∨
      s.m1_covers_state = OpenCloseState.CLOSED then
    (s, write_response Ack.SUCCESS sequence_id)
  else
    let s1 := { s with m1_covers_state := OpenCloseState.CLOSING }
    let step1 :=
      if s1.m1_cover_state ≠ MirrorCoverState.CLOSED then
        let r := set_m1_cover_events s1 false false
        (r.1, r.2 ++ [TraceItem.sleep r.1.m1_covers_close_time])
      else (s1, ([] : List TraceItem))
    let r2 := set_m1_cover_events step1.1 true false
    ({ r2.1 with m1_covers_state := OpenCloseState.CLOSED },
     step1.2 ++ r2.2 ++ write_response Ack.SUCCESS sequence_id)

/-- PneumaticsSimulator.do_open_m1_cover: symmetric to do_close_m1_cover with
m1_covers_open_time and the opened events. -/
def do_open_m1_cover (s : SimState) (sequence_id : Int) :
    SimState × List TraceItem :=
  if s.m1_covers_state = OpenCloseState.OPENING ∨
      s.m1_covers_state = OpenCloseState.OPEN then
    (s, write_response Ack.SUCCESS sequence_id)
  else
    let s1 := { s with m1_covers_state := OpenCloseState.OPENING }
    let step1 :=
      if s1.m1_cover_state ≠ MirrorCoverState.OPENED then
        let r := set_m1_cover_events s1 false false
        (r.1, r.2 ++ [TraceItem.sleep r.1.m1_covers_open_time])
      else (s1, ([] : List TraceItem))
    let r2 := set_m1_cover_events step1.1 false true
    ({ r2.1 with m1_covers_state := OpenCloseState.OPEN },
     step1.2 ++ r2.2 ++ write_response Ack.SUCCESS sequence_id)

/-- PneumaticsSimulator.do_close_m1_cell_vents. -/
def do_close_m1_cell_vents (s : SimState) (sequence_id : Int) :
    SimState × List TraceItem :=
  if s.m1_vents_state = OpenCloseState.CLOSING ∨
      s.m1_vents_state = OpenCloseState.CLOSED then
    (s, write_response Ack.SUCCESS sequence_id)
  else
    let s1 := { s with m1_vents_state := OpenCloseState.CLOSING }
    let step1 :=
      if s1.m1_vents_position ≠ VentsPosition.CLOSED then
        let r := set_cell_vents_events s1 false false
        (r.1, r.2 ++ [TraceItem.sleep r.1.cell_vents_close_time])
      else (s1, ([] : List TraceItem))
    let r2 := set_cell_vents_events step1.1 true false
    ({ r2.1 with m1_vents_state := OpenCloseState.CLOSED },
     step1.2 ++ r2.2 ++ write_response Ack.SUCCESS sequence_id)

/-- PneumaticsSimulator.do_open_m1_cell_vents. -/
def do_open_m1_cell_vents (s : SimState) (sequence_id : Int) :
    SimState × List TraceItem :=
  if s.m1_vents_state = OpenCloseState.OPENING ∨
      s.m1_vents_state = OpenCloseState.OPEN then
    (s, write_response Ack.SUCCESS sequence_id)
  else
    let s1 := { s with m1_vents_state := OpenCloseState.OPENING }
    let step1 :=
      if s1.m1_vents_position ≠ VentsPosition.OPENED then
        let r := set_cell_vents_events s1 false false
        (r.1, r.2 ++ [TraceItem.sleep r.1.cell_vents_open_time])
      else (s1, ([] : List TraceItem))
    let r2 := set_cell_vents_events step1.1 false true
    ({ r2.1 with m1_vents_state := OpenCloseState.OPEN },
     step1.2 ++ r2.2 ++ write_response Ack.SUCCESS sequence_id)

/-- Calling dispatch_dict with the keyword arguments of the payload other
than id and value (CMD_ITEMS_TO_IGNORE): a set-pressure handler requires the
pressure argument, every other handler requires its absence (a mismatch is a
Python TypeError). -/
def callHandler (c : Command) (s : SimState) (sequence_id : Int)
    (pressure : Option ℚ) : Except PyExc (SimState × List TraceItem) :=
  match c, pressure with
  | Command.M1_SET_PRESSURE, some p => Except.ok (do_m1_set_pressure s sequence_id p)
  | Command.M2_SET_PRESSURE, some p => Except.ok (do_m2_set_pressure s sequence_id p)
  | Command.M1_SET_PRESSURE, none => Except.error PyExc.typeError
  | Command.M2_SET_PRESSURE, none => Except.error PyExc.typeError
  | _, some _ => Except.error PyExc.typeError
  | Command.CLOSE_INSTRUMENT_AIR_VALE, none =>
      Except.ok (do_close_instrument_air_valve s sequence_id)
  | Command.CLOSE_M1_CELL_VENTS, none => Except.ok (do_close_m1_cell_vents s sequence_id)
  | Command.CLOSE_M1_COVER, none => Except.ok (do_close_m1_cover s sequence_id)
  | Command.CLOSE_MASTER_AIR_SUPPLY, none =>
      Except.ok (do_close_master_air_supply s sequence_id)
  | Command.M1_CLOSE_AIR_VALVE, none => Except.ok (do_m1_close_air_valve s sequence_id)
  | Command.M1_OPEN_AIR_VALVE, none => Except.ok (do_m1_open_air_valve s sequence_id)
  | Command.M2_CLOSE_AIR_VALVE, none => Except.ok (do_m2_close_air_valve s sequence_id)
  | Command.M2_OPEN_AIR_VALVE, none => Except.ok (do_m2_open_air_valve s sequence_id)
  | Command.OPEN_INSTRUMENT_AIR_VALVE, none =>
      Except.ok (do_open_instrument_air_valve s sequence_id)
  | Command.OPEN_M1_CELL_VENTS, none => Except.ok (do_open_m1_cell_vents s sequence_id)
  | Command.OPEN_M1_COVER, none => Except.ok (do_open_m1_cover s sequence_id)
  | Command.OPEN_MASTER_AIR_SUPPLY, none =>
      Except.ok (do_open_master_air_supply s sequence_id)

/-- PneumaticsSimulator.verify_data: require the id and sequence_id keys, a
registered schema for the id with cmd_ replaced by command_, the sequence id
exactly one above last_sequence_id; then record the sequence id and validate
against the JSON schema (jsonschema.validate is the external schema library,
passed in as the predicate schemaOk). -/
def verify_data (schemaOk : CommandData → Bool) (s : SimState) (data : CommandData) :
    SimState × Bool :=
  match data.id, data.sequence_id with
  | none, _ => (s, false)
  | some _, none => (s, false)
  | some payload_id_raw, some sequence_id =>
    let payload_id := pyReplace payload_id_raw "cmd_" "command_"
    if payload_id ∈ registryKeys then
      if sequence_id - s.last_sequence_id ≠ 1 then (s, false)
      else
        let s2 := { s with last_sequence_id := sequence_id }
        if schemaOk data then (s2, true) else (s2, false)
    else (s, false)

/-- PneumaticsSimulator.cmd_evt_dispatch_callback: on verification failure
write a NOACK carrying the sequence id read back from the payload (a KeyError
when the payload has none); on acceptance write the ACK, look the id up in
dispatch_dict and run the handler. -/
def cmd_evt_dispatch_callback (schemaOk : CommandData → Bool) (s : SimState)
    (data : CommandData) : Except PyExc (SimState × List TraceItem) :=
  let vres := verify_data schemaOk s data
  if vres.2 = false then
    match data.sequence_id with
    | none => Except.error PyExc.keyError
    | some sequence_id => Except.ok (vres.1, write_response Ack.NOACK sequence_id)
  else
    match data.id, data.sequence_id with
    | some cmd, some sequence_id =>
      match commandOfString cmd with
      | none => Except.error PyExc.keyError
      | some c =>
        match callHandler c vres.1 sequence_id data.pressure with
        | Except.ok r => Except.ok (r.1, write_response Ack.ACK sequence_id ++ r.2)
        | Except.error e => Except.error e
    | _, _ => Except.error PyExc.keyError

/-- PneumaticsServerSimulator.read_and_dispatch, iterated: the server awaits
the dispatch callback on each inbound payload before reading the next, so a
run over a payload stream is this serial fold of cmd_evt_dispatch_callback,
concatenating the emitted output. -/
def processCommands (schemaOk : CommandData → Bool) :
    SimState → List CommandData → Except PyExc (SimState × List TraceItem)
  | s, [] => Except.ok (s, [])
  | s, d :: ds =>
    match cmd_evt_dispatch_callback schemaOk s d with
    | Except.error e => Except.error e
    | Except.ok r =>
      match processCommands schemaOk r.1 ds with
      | Except.error e => Except.error e
      | Except.ok r2 => Except.ok (r2.1, r.2 ++ r2.2)

/-- PneumaticsSimulator.configure: the assert block followed by the
configuration writes.  Source line 169 repeats the m1_covers_close_time
assert of line 168, so m1_covers_open_time is never asserted. -/
def configure (s : SimState)
    (m1_covers_close_time m1_covers_open_time cell_vents_close_time
      cell_vents_open_time m1_pressure m2_pressure main_pressure cell_load : ℚ) :
    Except PyExc (SimState × List TraceItem) :=
  if ¬ (m1_covers_close_time ≥ 0) then Except.error PyExc.assertionError
  else if ¬ (m1_covers_close_time ≥ 0) then Except.error PyExc.assertionError
  else if ¬ (cell_vents_close_time ≥ 0) then Except.error PyExc.assertionError
  else if ¬ (cell_vents_open_time ≥ 0) then Except.error PyExc.assertionError
  else if ¬ (m1_pressure > 0) then Except.error PyExc.assertionError
  else if ¬ (m2_pressure > 0) then Except.error PyExc.assertionError
  else if ¬ (main_pressure > 0) then Except.error PyExc.assertionError
  else if ¬ (cell_load > 0) then Except.error PyExc.assertionError
  else
    Except.ok
      ({ s with
          m1_pressure := m1_pressure
          m2_pressure := m2_pressure
          m1_covers_close_time := m1_covers_close_time
          m1_covers_open_time := m1_covers_open_time
          cell_vents_close_time := cell_vents_close_time
          cell_vents_open_time := cell_vents_open_time
          main_air_source_pressure := main_pressure
          load_cell_cellLoad := cell_load },
       [TraceItem.evt (Evt.m1SetPressure m1_pressure),
        TraceItem.evt (Evt.m2SetPressure m2_pressure)])

/-- PneumaticsSimulator.initialize (a Lean keyword, hence the Sim suffix): emit the initialization events and open
the valves. -/
def initializeSim (s : SimState) : SimState × List TraceItem :=
  let s0 := { s with e_stop := false }
  let r1 := set_cell_vents_events s0 true false
  let r2 := set_m1_cover_events r1.1 true false
  let s3 :=
    { r2.1 with
        instrument_state := AirValveState.OPENED
        m1_state := AirValveState.OPENED
        m2_state := AirValveState.OPENED
        main_valve_state := AirValveState.OPENED
        power_status := { powerOnL1 := true, powerOnL2 := true, powerOnL3 := true } }
  (s3,
   TraceItem.evt (Evt.eStop false) :: r1.2 ++ r2.2 ++
     [TraceItem.evt (Evt.instrumentState AirValveState.OPENED),
      TraceItem.evt (Evt.m1State AirValveState.OPENED),
      TraceItem.evt (Evt.m2State AirValveState.OPENED),
      TraceItem.evt (Evt.mainValveState AirValveState.OPENED),
      TraceItem.evt (Evt.powerStatus true true true)])

/-- PneumaticsSimulator.update_telemetry: recompute the derived air-line
pressures from the valve states and emit the four telemetry records. -/
def update_telemetry (s : SimState) : SimState × List TraceItem :=
  let main_valve_open := s.main_valve_state = AirValveState.OPENED
  let m1p := if main_valve_open ∧ s.m1_state = AirValveState.OPENED then s.m1_pressure else 0
  let m2p := if main_valve_open ∧ s.m2_state = AirValveState.OPENED then s.m2_pressure else 0
  ({ s with m1_air_pressure := m1p, m2_air_pressure := m2p },
   [TraceItem.tel (Tel.m1AirPressure m1p),
    TraceItem.tel (Tel.m2AirPressure m2p),
    TraceItem.tel (Tel.mainAirSourcePressure s.main_air_source_pressure),
    TraceItem.tel (Tel.loadCell s.load_cell_cellLoad)])

/-- Decidable equality for Except, so concrete runs can be checked by decide. -/
instance {e a : Type} [DecidableEq e] [DecidableEq a] : DecidableEq (Except e a) := fun x y =>
  match x, y with
  | Except.ok u, Except.ok v =>
      if h : u = v then Decidable.isTrue (congrArg Except.ok h)
      else Decidable.isFalse (fun hc => h (Except.ok.inj hc))
  | Except.error u, Except.error v =>
      if h : u = v then Decidable.isTrue (congrArg Except.error h)
      else Decidable.isFalse (fun hc => h (Except.error.inj hc))
  | Except.ok _, Except.error _ => Decidable.isFalse (fun hc => Except.noConfusion hc)
  | Except.error _, Except.ok _ => Decidable.isFalse (fun hc => Except.noConfusion hc)

/-- Does a trace item carry no command response and no telemetry: an event or a
sleep, the only things a handler may emit between its ACK and its SUCCESS. -/
def evtOrSleep : TraceItem → Bool
  | TraceItem.evt _ => true
  | TraceItem.sleep _ => true
  | TraceItem.response _ _ => false
  | TraceItem.tel _ => false

/-- A handler output trace of the shape the dispatch protocol promises: events
and sleeps only, closed by the SUCCESS response with the handler's sequence id. -/
def successShape (out : List TraceItem) (q : Int) : Prop :=
  ∃ body, out = body ++ [TraceItem.response Ack.SUCCESS q] ∧ body.all evtOrSleep = true

/-- The rational 0.4, built without division so the kernel can evaluate it. -/
def q04 : ℚ := ⟨2, 5, by norm_num, by norm_num⟩

/-- The rational 0.8, built without division so the kernel can evaluate it. -/
def q08 : ℚ := ⟨4, 5, by norm_num, by norm_num⟩

/-- PneumaticsSimulator.cmd_evt_connect_callback on connect: configure with
the default arguments, then initialize.  This is the state every command run
starts from. -/
def afterConnectState : SimState :=
  match configure initState 20 20 5 1 5 6 10 100 with
  | Except.ok p => (initializeSim p.1).1
  | Except.error _ => initState

/-- The connect-time state under the example scenario configuration of the
spec: cell_vents_close_time 0.4, cell_vents_open_time 0.8, the rest default. -/
def scenarioStartState : SimState :=
  match configure initState 20 20 q04 q08 5 6 10 100 with
  | Except.ok p => (initializeSim p.1).1
  | Except.error _ => initState

/-- The state after an accepted openM1Cover has fully opened the covers. -/
def afterOpenState : SimState := (do_open_m1_cover afterConnectState 1).1

/-- The serial run openM1Cover(1), closeM1Cover(2), openM1Cover(3) from the
connect-time state: the client sends the third command while the second one's
close transition is still sleeping, and the server dispatches it when the
close handler returns. -/
def openCloseOpenRun : Except PyExc (SimState × List TraceItem) :=
  processCommands (fun _ => true) afterConnectState
    [⟨some "cmd_openM1Cover", some 1, none, none⟩,
     ⟨some "cmd_closeM1Cover", some 2, none, none⟩,
     ⟨some "cmd_openM1Cover", some 3, none, none⟩]

/-- The final state of openCloseOpenRun. -/
def openCloseOpenFinal : SimState :=
  { afterConnectState with
      m1_covers_state := OpenCloseState.OPEN
      m1_cover_limit_switches :=
        { cover1ClosedActive := false, cover2ClosedActive := false
          cover3ClosedActive := false, cover4ClosedActive := false
          cover1OpenedActive := true, cover2OpenedActive := true
          cover3OpenedActive := true, cover4OpenedActive := true }
      m1_cover_state := MirrorCoverState.OPENED
      last_sequence_id := 3 }

/-- The output trace of openCloseOpenRun: each of the three cover transitions
runs to completion, and in particular the close transition of command 2 emits
its settled (fully-closed) events before its SUCCESS. -/
def openCloseOpenTrace : List TraceItem :=
  [TraceItem.response Ack.ACK 1,
   TraceItem.evt (Evt.m1CoverLimitSwitches false false false false false false false false),
   TraceItem.evt (Evt.m1CoverState MirrorCoverState.INMOTION),
   TraceItem.sleep 20,
   TraceItem.evt (Evt.m1CoverLimitSwitches false true false true false true false true),
   TraceItem.evt (Evt.m1CoverState MirrorCoverState.OPENED),
   TraceItem.response Ack.SUCCESS 1,
   TraceItem.response Ack.ACK 2,
   TraceItem.evt (Evt.m1CoverLimitSwitches false false false false false false false false),
   TraceItem.evt (Evt.m1CoverState MirrorCoverState.INMOTION),
   TraceItem.sleep 20,
   TraceItem.evt (Evt.m1CoverLimitSwitches true false true false true false true false),
   TraceItem.evt (Evt.m1CoverState MirrorCoverState.CLOSED),
   TraceItem.response Ack.SUCCESS 2,
   TraceItem.response Ack.ACK 3,
   TraceItem.evt (Evt.m1CoverLimitSwitches false false false false false false false false),
   TraceItem.evt (Evt.m1CoverState MirrorCoverState.INMOTION),
   TraceItem.sleep 20,
   TraceItem.evt (Evt.m1CoverLimitSwitches false true false true false true false true),
   TraceItem.evt (Evt.m1CoverState MirrorCoverState.OPENED),
   TraceItem.response Ack.SUCCESS 3]

/-- The run of the spec's example scenario: openM1CellVents with sequence
id 1 from the scenario connect-time state. -/
def openVentsScenarioRun : Except PyExc (SimState × List TraceItem) :=
  processCommands (fun _ => true) scenarioStartState
    [⟨some "cmd_openM1CellVents", some 1, none, none⟩]

/-- The final state of openVentsScenarioRun. -/
def openVentsScenarioFinal : SimState :=
  { scenarioStartState with
      m1_vents_state := OpenCloseState.OPEN
      cell_vents_state := CellVentState.OPENED
      m1_vents_limit_switches := { ventsClosedActive := false, ventsOpenedActive := true }
      m1_vents_position := VentsPosition.OPENED
      last_sequence_id := 1 }

/-- The output trace the code actually produces for the example scenario. -/
def openVentsScenarioTrace : List TraceItem :=
  [TraceItem.response Ack.ACK 1,
   TraceItem.evt (Evt.cellVentsState CellVentState.INMOTION),
   TraceItem.evt (Evt.m1VentsLimitSwitches false false),
   TraceItem.evt (Evt.m1VentsPosition VentsPosition.PARTIALLYOPENED),
   TraceItem.evt (Evt.cellVentsState CellVentState.INMOTION),
   TraceItem.sleep q08,
   TraceItem.evt (Evt.m1VentsLimitSwitches false true),
   TraceItem.evt (Evt.m1VentsPosition VentsPosition.OPENED),
   TraceItem.evt (Evt.cellVentsState CellVentState.OPENED),
   TraceItem.response Ack.SUCCESS 1]

/-- The message sequence the specification's example scenario asserts, written
from the claim's words for comparison with the trace the code produces. -/
def claimedVentsScenarioTrace : List TraceItem :=
  [TraceItem.response Ack.ACK 1,
   TraceItem.evt (Evt.cellVentsState CellVentState.INMOTION),
   TraceItem.evt (Evt.m1VentsPosition VentsPosition.PARTIALLYOPENED),
   TraceItem.evt (Evt.m1VentsLimitSwitches false false),
   TraceItem.sleep q08,
   TraceItem.evt (Evt.cellVentsState CellVentState.OPENED),
   TraceItem.evt (Evt.m1VentsPosition VentsPosition.OPENED),
   TraceItem.evt (Evt.m1VentsLimitSwitches false true),
   TraceItem.response Ack.SUCCESS 1]

/-- Sanity: q04 is 0.4. -/
theorem q04_eq : q04 = 0.4 := by
  rw [q04, Rat.mk'_eq_divInt, Rat.divInt_eq_div]; norm_num

/-- Sanity: q08 is 0.8. -/
theorem q08_eq : q08 = 0.8 := by
  rw [q08, Rat.mk'_eq_divInt, Rat.divInt_eq_div]; norm_num
theorem set_m1_cover_events_all (s : SimState) (c o : Bool) :
    ((set_m1_cover_events s c o).2).all evtOrSleep = true := by
  cases c <;> cases o <;> simp [set_m1_cover_events, evtOrSleep]

theorem set_cell_vents_events_all (s : SimState) (c o : Bool) :
    ((set_cell_vents_events s c o).2).all evtOrSleep = true := by
  cases c <;> cases o <;> simp [set_cell_vents_events, evtOrSleep]

theorem do_close_m1_cover_shape (s : SimState) (q : Int) :
    successShape (do_close_m1_cover s q).2 q := by
  unfold do_close_m1_cover write_response
  split
  · exact ⟨[], rfl, rfl⟩
  · dsimp only
    split
    · refine ⟨_, rfl, ?_⟩
      simp [List.all_append, set_m1_cover_events_all, evtOrSleep]
    · refine ⟨_, rfl, ?_⟩
      simp [List.all_append, set_m1_cover_events_all, evtOrSleep]

theorem do_open_m1_cover_shape (s : SimState) (q : Int) :
    successShape (do_open_m1_cover s q).2 q := by
  unfold do_open_m1_cover write_response
  split
  · exact ⟨[], rfl, rfl⟩
  · dsimp only
    split
    · refine ⟨_, rfl, ?_⟩
      simp [List.all_append, set_m1_cover_events_all, evtOrSleep]
    · refine ⟨_, rfl, ?_⟩
      simp [List.all_append, set_m1_cover_events_all, evtOrSleep]

theorem do_close_m1_cell_vents_shape (s : SimState) (q : Int) :
    successShape (do_close_m1_cell_vents s q).2 q := by
  unfold do_close_m1_cell_vents write_response
  split
  · exact ⟨[], rfl, rfl⟩
  · dsimp only
    split
    · refine ⟨_, rfl, ?_⟩
      simp [List.all_append, set_cell_vents_events_all, evtOrSleep]
    · refine ⟨_, rfl, ?_⟩
      simp [List.all_append, set_cell_vents_events_all, evtOrSleep]

theorem do_open_m1_cell_vents_shape (s : SimState) (q : Int) :
    successShape (do_open_m1_cell_vents s q).2 q := by
  unfold do_open_m1_cell_vents write_response
  split
  · exact ⟨[], rfl, rfl⟩
  · dsimp only
    split
    · refine ⟨_, rfl, ?_⟩
      simp [List.all_append, set_cell_vents_events_all, evtOrSleep]
    · refine ⟨_, rfl, ?_⟩
      simp [List.all_append, set_cell_vents_events_all, evtOrSleep]

theorem callHandler_shape (c : Command) (s : SimState) (q : Int) (p : Option ℚ)
    (r : SimState × List TraceItem) (h : callHandler c s q p = Except.ok r) :
    successShape r.2 q := by
  cases c <;> cases p <;> simp [callHandler] at h
  all_goals first
    | (rw [← h]; exact do_close_m1_cover_shape _ _)
    | (rw [← h]; exact do_open_m1_cover_shape _ _)
    | (rw [← h]; exact do_close_m1_cell_vents_shape _ _)
    | (rw [← h]; exact do_open_m1_cell_vents_shape _ _)
    | (rw [← h];
       exact ⟨[TraceItem.evt (Evt.instrumentState AirValveState.CLOSED)], rfl, rfl⟩)
    | (rw [← h];
       exact ⟨[TraceItem.evt (Evt.instrumentState AirValveState.OPENED)], rfl, rfl⟩)
    | (rw [← h];
       exact ⟨[TraceItem.evt (Evt.mainValveState AirValveState.CLOSED)], rfl, rfl⟩)
    | (rw [← h];
       exact ⟨[TraceItem.evt (Evt.mainValveState AirValveState.OPENED)], rfl, rfl⟩)
    | (rw [← h];
       exact ⟨[TraceItem.evt (Evt.m1State AirValveState.CLOSED)], rfl, rfl⟩)
    | (rw [← h];
       exact ⟨[TraceItem.evt (Evt.m1State AirValveState.OPENED)], rfl, rfl⟩)
    | (rw [← h];
       exact ⟨[TraceItem.evt (Evt.m2State AirValveState.CLOSED)], rfl, rfl⟩)
    | (rw [← h];
       exact ⟨[TraceItem.evt (Evt.m2State AirValveState.OPENED)], rfl, rfl⟩)
    | (rw [← h];
       exact ⟨[TraceItem.evt (Evt.m1SetPressure _)], rfl, rfl⟩)
    | (rw [← h];
       exact ⟨[TraceItem.evt (Evt.m2SetPressure _)], rfl, rfl⟩)

theorem verify_data_eval (schemaOk : CommandData → Bool) (s : SimState)
    (i : String) (q : Int) (po : Option ℚ) (vo : Option Bool)
    (hreg : pyReplace i "cmd_" "command_" ∈ registryKeys) :
    verify_data schemaOk s ⟨some i, some q, po, vo⟩ =
      if q - s.last_sequence_id = 1 then
        ({ s with last_sequence_id := q }, schemaOk ⟨some i, some q, po, vo⟩)
      else (s, false) := by
  unfold verify_data
  dsimp only
  rw [if_pos hreg]
  by_cases hone : q - s.last_sequence_id = 1
  · rw [if_neg (by omega), if_pos hone]
    cases hs : schemaOk ⟨some i, some q, po, vo⟩ <;> simp [hs]
  · rw [if_pos hone, if_neg hone]

theorem verify_true_seq (schemaOk : CommandData → Bool) (s : SimState)
    (data : CommandData) (q : Int) (hq : data.sequence_id = some q)
    (hacc : (verify_data schemaOk s data).2 = true) :
    q = s.last_sequence_id + 1 := by
  obtain ⟨io, qo, po, vo⟩ := data
  cases hq
  cases io <;> (unfold verify_data at hacc; dsimp only at hacc)
  · simp at hacc
  · split_ifs at hacc <;> simp_all <;> omega

theorem dispatch_on_reject (schemaOk : CommandData → Bool) (s : SimState)
    (data : CommandData) (q : Int) (hq : data.sequence_id = some q)
    (hfail : (verify_data schemaOk s data).2 = false) :
    cmd_evt_dispatch_callback schemaOk s data =
      Except.ok ((verify_data schemaOk s data).1,
        [TraceItem.response Ack.NOACK q]) := by
  unfold cmd_evt_dispatch_callback write_response
  dsimp only
  rw [if_pos hfail, hq]

/-- Claim C1: after any state of the sequence counter, a well-formed command
(keys present, known id, schema-valid) is accepted by verify_data exactly when
its sequence id is the last accepted one plus 1, and any other sequence id
makes the dispatch callback emit exactly one NOACK and leave the whole state,
the counter included, unchanged. -/
theorem verify_sequence_gate (schemaOk : CommandData → Bool) (s : SimState)
    (i : String) (q : Int) (data : CommandData)
    (hid : data.id = some i) (hq : data.sequence_id = some q)
    (hreg : pyReplace i "cmd_" "command_" ∈ registryKeys)
    (hschema : schemaOk data = true) :
    ((verify_data schemaOk s data).2 = true ↔ q = s.last_sequence_id + 1) ∧
    (q ≠ s.last_sequence_id + 1 →
      cmd_evt_dispatch_callback schemaOk s data =
        Except.ok (s, [TraceItem.response Ack.NOACK q])) := by
  obtain ⟨io, qo, po, vo⟩ := data
  cases hid
  cases hq
  have hv := verify_data_eval schemaOk s i q po vo hreg
  constructor
  · rw [hv]
    by_cases hone : q - s.last_sequence_id = 1
    · rw [if_pos hone]
      simp only [hschema]
      constructor
      · intro _; omega
      · intro _; trivial
    · rw [if_neg hone]
      constructor
      · intro hfalse; simp at hfalse
      · intro hcontra; omega
  · intro hne
    have hfail : (verify_data schemaOk s ⟨some i, some q, po, vo⟩).2 = false := by
      rw [hv, if_neg (by omega)]
    have hstate : (verify_data schemaOk s ⟨some i, some q, po, vo⟩).1 = s := by
      rw [hv, if_neg (by omega)]
    rw [dispatch_on_reject schemaOk s _ q rfl hfail, hstate]

/-- Witness for C1: from the fresh simulator state (last accepted 0), the
known, schema-valid command openM1Cover with sequence id 5 draws one NOACK
and leaves the state untouched. -/
theorem verify_sequence_gate_example :
    cmd_evt_dispatch_callback (fun _ => true) initState
      ⟨some "cmd_openM1Cover", some 5, none, none⟩ =
      Except.ok (initState, [TraceItem.response Ack.NOACK 5]) :=
  (verify_sequence_gate (fun _ => true) initState "cmd_openM1Cover" 5
    ⟨some "cmd_openM1Cover", some 5, none, none⟩ rfl rfl (by decide) rfl).2 (by decide)

/-- Claim C4 (amended): the sequence counter starts at 0 and the first command
obeys the same last-plus-one rule as every later one: it is accepted exactly
when its sequence id is 1, in which case its sequence id seeds the counter. -/
theorem first_command_needs_seq_one (schemaOk : CommandData → Bool)
    (i : String) (q : Int) (data : CommandData)
    (hid : data.id = some i) (hq : data.sequence_id = some q)
    (hreg : pyReplace i "cmd_" "command_" ∈ registryKeys)
    (hschema : schemaOk data = true) :
    ((verify_data schemaOk initState data).2 = true ↔ q = 1) ∧
    (q = 1 → (verify_data schemaOk initState data).1.last_sequence_id = q) := by
  obtain ⟨io, qo, po, vo⟩ := data
  cases hid
  cases hq
  have hv := verify_data_eval schemaOk initState i q po vo hreg
  have hzero : initState.last_sequence_id = 0 := rfl
  constructor
  · rw [hv]
    by_cases hone : q - initState.last_sequence_id = 1
    · rw [if_pos hone]
      simp only [hschema]
      constructor
      · intro _; omega
      · intro _; trivial
    · rw [if_neg hone]
      constructor
      · intro hfalse; simp at hfalse
      · intro hcontra; omega
  · intro hone
    rw [hv, if_pos (by omega)]

/-- Witness for C4: with the counter fresh at 0, sequence id 1 is accepted and
seeds the counter with 1. -/
theorem first_command_needs_seq_one_example :
    (verify_data (fun _ => true) initState
      ⟨some "cmd_openM1Cover", some 1, none, none⟩).2 = true ∧
    (verify_data (fun _ => true) initState
      ⟨some "cmd_openM1Cover", some 1, none, none⟩).1.last_sequence_id = 1 :=
  ⟨(first_command_needs_seq_one (fun _ => true) "cmd_openM1Cover" 1
      ⟨some "cmd_openM1Cover", some 1, none, none⟩ rfl rfl (by decide) rfl).1.mpr rfl,
   (first_command_needs_seq_one (fun _ => true) "cmd_openM1Cover" 1
      ⟨some "cmd_openM1Cover", some 1, none, none⟩ rfl rfl (by decide) rfl).2 rfl⟩

/-- Counterexample to C4 as stated: the very first command is not accepted
unconditionally; with the counter at its initial 0, a known, schema-valid
command with sequence id 5 is rejected and nothing is seeded. -/
theorem first_command_seq_five_rejected :
    (verify_data (fun _ => true) initState
      ⟨some "cmd_openM1Cover", some 5, none, none⟩).2 = false ∧
    (verify_data (fun _ => true) initState
      ⟨some "cmd_openM1Cover", some 5, none, none⟩).1 = initState := by decide

/-- Claim C10: a payload with a known command id, the correct next sequence id
and an invalid schema draws a NOACK, yet the counter has already been advanced
to the rejected sequence id, so any later accepted command must carry the
rejected id plus 1. -/
theorem schema_failure_still_advances_counter (schemaOk : CommandData → Bool)
    (s : SimState) (i : String) (q : Int) (data : CommandData)
    (hid : data.id = some i) (hq : data.sequence_id = some q)
    (hreg : pyReplace i "cmd_" "command_" ∈ registryKeys)
    (hschema : schemaOk data = false) (hseq : q = s.last_sequence_id + 1) :
    cmd_evt_dispatch_callback schemaOk s data =
      Except.ok ({ s with last_sequence_id := q },
        [TraceItem.response Ack.NOACK q]) ∧
    (∀ (schemaOk2 : CommandData → Bool) (data2 : CommandData) (q2 : Int),
      data2.sequence_id = some q2 →
      (verify_data schemaOk2 { s with last_sequence_id := q } data2).2 = true →
      q2 = q + 1) := by
  obtain ⟨io, qo, po, vo⟩ := data
  cases hid
  cases hq
  have hv := verify_data_eval schemaOk s i q po vo hreg
  have hfail : (verify_data schemaOk s ⟨some i, some q, po, vo⟩).2 = false := by
    rw [hv, if_pos (by omega)]
    exact hschema
  have hstate : (verify_data schemaOk s ⟨some i, some q, po, vo⟩).1 =
      { s with last_sequence_id := q } := by
    rw [hv, if_pos (by omega)]
  constructor
  · rw [dispatch_on_reject schemaOk s _ q rfl hfail, hstate]
  · intro schemaOk2 data2 q2 hq2 hacc2
    have := verify_true_seq schemaOk2 { s with last_sequence_id := q } data2 q2 hq2 hacc2
    simpa using this

/-- Witness for C10: openM1Cover with the correct first sequence id 1 but a
failing schema validation is NOACKed while the counter moves to 1. -/
theorem schema_failure_still_advances_counter_example :
    cmd_evt_dispatch_callback (fun _ => false) initState
      ⟨some "cmd_openM1Cover", some 1, none, none⟩ =
      Except.ok ({ initState with last_sequence_id := 1 },
        [TraceItem.response Ack.NOACK 1]) :=
  (schema_failure_still_advances_counter (fun _ => false) initState
    "cmd_openM1Cover" 1 ⟨some "cmd_openM1Cover", some 1, none, none⟩
    rfl rfl (by decide) rfl (by decide)).1

/-- Claim C3: for every accepted command whose dispatch completes, the output
written for it is the ACK with the command sequence id first (before anything
the handler does), then only events and sleeps, closed by the SUCCESS carrying
the same sequence id, so every event caused by the command is emitted strictly
before its SUCCESS. -/
theorem accepted_command_events_before_success (schemaOk : CommandData → Bool)
    (s : SimState) (data : CommandData) (s2 : SimState) (out : List TraceItem)
    (hacc : (verify_data schemaOk s data).2 = true)
    (hok : cmd_evt_dispatch_callback schemaOk s data = Except.ok (s2, out)) :
    ∃ q body, data.sequence_id = some q ∧
      out = TraceItem.response Ack.ACK q ::
        (body ++ [TraceItem.response Ack.SUCCESS q]) ∧
      body.all evtOrSleep = true := by
  unfold cmd_evt_dispatch_callback at hok
  dsimp only at hok
  rw [if_neg (by simp [hacc])] at hok
  obtain ⟨io, qo, po, vo⟩ := data
  cases io with
  | none => simp [verify_data] at hacc
  | some i =>
    cases qo with
    | none => simp [verify_data] at hacc
    | some q =>
      dsimp only at hok
      cases hcs : commandOfString i with
      | none => rw [hcs] at hok; exact absurd hok (by simp)
      | some c =>
        rw [hcs] at hok
        dsimp only at hok
        cases hch : callHandler c
            (verify_data schemaOk s ⟨some i, some q, po, vo⟩).1 q po with
        | error e => rw [hch] at hok; exact absurd hok (by simp)
        | ok r =>
          rw [hch] at hok
          simp only [Except.ok.injEq, Prod.mk.injEq] at hok
          obtain ⟨body, hbody, hall⟩ := callHandler_shape c _ q po r hch
          refine ⟨q, body, rfl, ?_, hall⟩
          rw [← hok.2, hbody]
          rfl

/-- Witness for C3: the accepted command closeInstrumentAirValve with sequence
id 1 from the fresh state produces its ACK, one event, then its SUCCESS. -/
theorem accepted_command_events_before_success_example :
    ∃ q body,
      (⟨some "cmd_closeInstrumentAirValve", some 1, none, none⟩ : CommandData).sequence_id
        = some q ∧
      ([TraceItem.response Ack.ACK 1,
        TraceItem.evt (Evt.instrumentState AirValveState.CLOSED),
        TraceItem.response Ack.SUCCESS 1] : List TraceItem) =
        TraceItem.response Ack.ACK q ::
          (body ++ [TraceItem.response Ack.SUCCESS q]) ∧
      body.all evtOrSleep = true :=
  accepted_command_events_before_success (fun _ => true) initState
    ⟨some "cmd_closeInstrumentAirValve", some 1, none, none⟩
    { initState with instrument_state := AirValveState.CLOSED, last_sequence_id := 1 }
    [TraceItem.response Ack.ACK 1,
     TraceItem.evt (Evt.instrumentState AirValveState.CLOSED),
     TraceItem.response Ack.SUCCESS 1]
    (by decide) (by decide)

/-- Claim C7: a closeM1Cover dispatched while the covers state is already
CLOSED or CLOSING leaves the whole simulator state unchanged and emits only
the SUCCESS response with its own sequence id; in particular a second
consecutive closeM1Cover is always such a no-op. -/
theorem close_m1_cover_idempotent (s : SimState) (q q2 : Int)
    (h : s.m1_covers_state = OpenCloseState.CLOSED ∨
      s.m1_covers_state = OpenCloseState.CLOSING) :
    do_close_m1_cover s q = (s, [TraceItem.response Ack.SUCCESS q]) ∧
    do_close_m1_cover (do_close_m1_cover s q2).1 q =
      ((do_close_m1_cover s q2).1, [TraceItem.response Ack.SUCCESS q]) := by
  have h1 : ∀ s' : SimState,
      s'.m1_covers_state = OpenCloseState.CLOSED ∨
        s'.m1_covers_state = OpenCloseState.CLOSING →
      ∀ q' : Int, do_close_m1_cover s' q' = (s', [TraceItem.response Ack.SUCCESS q']) := by
    intro s' h' q'
    unfold do_close_m1_cover write_response
    rcases h' with h' | h' <;> rw [if_pos (by simp [h'])]
  refine ⟨h1 s h q, ?_⟩
  rw [h1 s h q2]
  exact h1 s h q

/-- Witness for C7: from the fresh state, whose covers are CLOSED, a
closeM1Cover with sequence id 7 only answers SUCCESS and changes nothing. -/
theorem close_m1_cover_idempotent_example :
    do_close_m1_cover initState 7 = (initState, [TraceItem.response Ack.SUCCESS 7]) :=
  (close_m1_cover_idempotent initState 7 8 (Or.inl rfl)).1

/-- Claim C2 (amended): the dispatcher awaits each handler before reading the
next command, so an openM1Cover sent while a closeM1Cover transition is in
flight is dispatched only after the close completes; nothing is cancelled: the
close emits its settled fully-closed event and its SUCCESS, leaves the covers
CLOSED, and only then does the open transition run and emit its own in-motion
event. -/
theorem close_completes_then_open_emits_in_motion (s : SimState) (q q2 : Int)
    (hrun : s.m1_covers_state = OpenCloseState.OPENING ∨
      s.m1_covers_state = OpenCloseState.OPEN)
    (hnc : s.m1_cover_state ≠ MirrorCoverState.CLOSED) :
    TraceItem.evt (Evt.m1CoverState MirrorCoverState.CLOSED) ∈ (do_close_m1_cover s q).2 ∧
    successShape (do_close_m1_cover s q).2 q ∧
    (do_close_m1_cover s q).1.m1_covers_state = OpenCloseState.CLOSED ∧
    TraceItem.evt (Evt.m1CoverState MirrorCoverState.INMOTION) ∈
      (do_open_m1_cover (do_close_m1_cover s q).1 q2).2 := by
  have hg1 : s.m1_covers_state ≠ OpenCloseState.CLOSING := by
    rcases hrun with h | h <;> simp [h]
  have hg2 : s.m1_covers_state ≠ OpenCloseState.CLOSED := by
    rcases hrun with h | h <;> simp [h]
  refine ⟨?_, do_close_m1_cover_shape s q, ?_, ?_⟩
  · simp [do_close_m1_cover, set_m1_cover_events, write_response, hg1, hg2, hnc]
  · simp [do_close_m1_cover, set_m1_cover_events, write_response, hg1, hg2, hnc]
  · simp [do_close_m1_cover, do_open_m1_cover, set_m1_cover_events, write_response,
      hg1, hg2, hnc]

/-- Witness for C2: with the covers fully open, closeM1Cover(2) emits the
settled fully-closed event and finishes, and the following openM1Cover(3)
emits its own in-motion event. -/
theorem close_completes_then_open_emits_in_motion_example :
    TraceItem.evt (Evt.m1CoverState MirrorCoverState.CLOSED) ∈
      (do_close_m1_cover afterOpenState 2).2 ∧
    successShape (do_close_m1_cover afterOpenState 2).2 2 ∧
    (do_close_m1_cover afterOpenState 2).1.m1_covers_state = OpenCloseState.CLOSED ∧
    TraceItem.evt (Evt.m1CoverState MirrorCoverState.INMOTION) ∈
      (do_open_m1_cover (do_close_m1_cover afterOpenState 2).1 3).2 :=
  close_completes_then_open_emits_in_motion afterOpenState 2 3 (by decide) (by decide)

/-- Claim C6: every telemetry update emits exactly the four telemetry records,
m1AirPressure, m2AirPressure, mainAirSourcePressure and loadCell, whatever the
state is, and each air-line pressure reads as that line's set-pressure when
both the main valve and the line valve are OPENED and as 0 otherwise. -/
theorem update_telemetry_emits_four_records (s : SimState) :
    (update_telemetry s).2 =
      [TraceItem.tel (Tel.m1AirPressure
        (if s.main_valve_state = AirValveState.OPENED ∧
            s.m1_state = AirValveState.OPENED then s.m1_pressure else 0)),
       TraceItem.tel (Tel.m2AirPressure
        (if s.main_valve_state = AirValveState.OPENED ∧
            s.m2_state = AirValveState.OPENED then s.m2_pressure else 0)),
       TraceItem.tel (Tel.mainAirSourcePressure s.main_air_source_pressure),
       TraceItem.tel (Tel.loadCell s.load_cell_cellLoad)] ∧
    (update_telemetry s).1.m1_air_pressure =
      (if s.main_valve_state = AirValveState.OPENED ∧
          s.m1_state = AirValveState.OPENED then s.m1_pressure else 0) ∧
    (update_telemetry s).1.m2_air_pressure =
      (if s.main_valve_state = AirValveState.OPENED ∧
          s.m2_state = AirValveState.OPENED then s.m2_pressure else 0) :=
  ⟨rfl, rfl, rfl⟩

/-- Counterexample to C2 as stated: in the serial run openM1Cover(1),
closeM1Cover(2), openM1Cover(3) the close transition of command 2 is not
cancelled by the open command queued behind it; its settled fully-closed event
and its SUCCESS both appear in the trace. -/
theorem serial_run_emits_close_settled :
    openCloseOpenRun = Except.ok (openCloseOpenFinal, openCloseOpenTrace) ∧
    TraceItem.evt (Evt.m1CoverState MirrorCoverState.CLOSED) ∈ openCloseOpenTrace ∧
    TraceItem.response Ack.SUCCESS 2 ∈ openCloseOpenTrace := by decide

/-- Claim C5 (amended): from the initial CLOSED vents state of the example
scenario, the accepted openM1CellVents with sequence id 1 produces exactly
ACK(1); cellVentsState=INMOTION; m1VentsLimitSwitches(false,false);
m1VentsPosition=PARTIALLYOPENED; cellVentsState=INMOTION again; then after the
configured open time (0.8): m1VentsLimitSwitches(false,true);
m1VentsPosition=OPENED; cellVentsState=OPENED; then SUCCESS(1). -/
theorem open_vents_scenario_trace :
    openVentsScenarioRun = Except.ok (openVentsScenarioFinal, openVentsScenarioTrace) := by
  decide

/-- Counterexample to C5 as stated: the trace the code produces differs from
the claimed message sequence (the limit-switch event precedes the position
event in each phase, the in-motion cellVentsState event is emitted twice, and
the settled cellVentsState event comes last, not first). -/
theorem open_vents_scenario_not_claimed_sequence :
    openVentsScenarioRun = Except.ok (openVentsScenarioFinal, openVentsScenarioTrace) ∧
    openVentsScenarioTrace ≠ claimedVentsScenarioTrace := by decide

/-- Claim C8, at the failing input: a payload without a sequence id is not
silently dropped after logging; the callback still tries to write a NOACK with
the missing key and raises a KeyError.  A payload that has a sequence id but
fails verification (here: no id key) does get the NOACK carrying that
sequence id. -/
theorem missing_sequence_id_raises_key_error :
    cmd_evt_dispatch_callback (fun _ => true) initState
      ⟨some "cmd_openM1Cover", none, none, none⟩ = Except.error PyExc.keyError ∧
    cmd_evt_dispatch_callback (fun _ => true) initState
      ⟨none, some 1, none, none⟩ =
      Except.ok (initState, [TraceItem.response Ack.NOACK 1]) := by decide

/-- Claim C9, at the failing input: configure accepts a negative
m1_covers_open_time (line 169 of the source re-asserts the close time instead
of the open time), while each of the three other transition times is asserted
non-negative. -/
theorem configure_skips_open_time_assert :
    (configure initState 20 (-1) 5 1 5 6 10 100).toOption.map
      (fun p => p.1.m1_covers_open_time) = some (-1) ∧
    configure initState (-1) 20 5 1 5 6 10 100 = Except.error PyExc.assertionError ∧
    configure initState 20 20 (-1) 1 5 6 10 100 = Except.error PyExc.assertionError ∧
    configure initState 20 20 5 (-1) 5 6 10 100 = Except.error PyExc.assertionError := by
  decide

end ATPneumatics
